import Mathlib

/-!
Shallow embedding of the order / fund-split / refund / auto-settlement subsystem
of the DS repository (FastAPI + MySQL, pymysql with `autocommit=False`).

Modelling conventions:
* All money columns (`DECIMAL(12,2)` etc.) are integers in minor units (cents);
  `Decimal` arithmetic on such values is exact, so integer arithmetic is faithful.
* Each relational table is a `List` of row structures inside a `DB` record.
* A request handler that can raise `HTTPException` is a function returning
  `Except CreateErr ...`; `get_conn` (src/core/database.py) rolls the transaction
  back on any exception and nothing is committed, which is modelled by the
  `*Committed` wrappers that return the original `DB` on error.
* `MySQL` timestamps are abstract `Nat` instants; `now + 7 days` is `now + 7`.
-/

namespace DS

/-- A row of `products` (src/database_setup.py); only the columns the order
subsystem reads are modelled. `is_member_product` is the premium-item flag. -/
structure Product where
  id : Nat
  is_member_product : Bool
deriving DecidableEq, Repr

/-- A row of `product_skus` (src/product/models.py): signed integer `stock`,
`price DECIMAL(12,2)` in cents. -/
structure Sku where
  id : Nat
  product_id : Nat
  stock : Int
  price : Int
deriving DecidableEq, Repr

/-- A row of `cart` as read by `OrderManager.create` (src/api/order/order.py,
cart checkout branch). -/
structure CartEntry where
  user_id : Nat
  product_id : Nat
  sku_id : Nat
  quantity : Nat
  selected : Bool
  specifications : Option String
deriving DecidableEq, Repr

/-- A row of `orders` (src/database_setup.py); columns not touched by the
modelled operations (`order_no`, `merchant_id`, points fields, ...) are omitted.
`refund_reason` is the reused text column that carries the specification blob
at creation time. -/
structure OrderRow where
  id : Nat
  user_id : Nat
  order_number : String
  total_amount : Int
  status : String
  is_vip_item : Bool
  consignee_name : Option String
  consignee_phone : Option String
  province : Option String
  city : Option String
  district : Option String
  shipping_address : Option String
  delivery_way : String
  pay_way : String
  auto_recv_time : Nat
  refund_reason : Option String
deriving DecidableEq, Repr

/-- A row of `order_items` as inserted by `OrderManager.create`. -/
structure OrderItem where
  order_id : Nat
  product_id : Nat
  sku_id : Nat
  quantity : Nat
  unit_price : Int
  total_price : Int
deriving DecidableEq, Repr

/-- A row of `order_split` (src/database_setup.py lines 399-408):
`item_type ENUM('merchant','pool')`, `amount DECIMAL(10,2)`, `pool_type`. -/
structure OrderSplitRow where
  order_number : String
  item_type : String
  amount : Int
  pool_type : Option String
deriving DecidableEq, Repr

/-- A row of `account_flow` (src/database_setup.py): the append-only ledger.
Only the columns the modelled flows populate are kept; `remark` carries the
originating order number for split/reversal rows. -/
structure AccountFlowRow where
  account_type : String
  change_amount : Int
  remark : String
deriving DecidableEq, Repr

/-- A row of `finance_accounts` (src/database_setup.py). -/
structure FinanceAccount where
  account_type : String
  balance : Int
deriving DecidableEq, Repr

/-- A row of `refunds` (src/database_setup.py lines 366-378). -/
structure RefundRow where
  order_number : String
  refund_type : String
  reason : String
  status : String
  reject_reason : Option String
deriving DecidableEq, Repr

/-- The database state seen by the order subsystem.  `has_stock_field` models
the dynamic schema introspection in `OrderManager.create` (src/api/order/order.py
lines 109-118): whether `product_skus` currently carries a `stock` column. -/
structure DB where
  products : List Product
  skus : List Sku
  cart : List CartEntry
  orders : List OrderRow
  order_items : List OrderItem
  order_split : List OrderSplitRow
  account_flow : List AccountFlowRow
  finance_accounts : List FinanceAccount
  refunds : List RefundRow
  has_stock_field : Bool
deriving DecidableEq, Repr

/-- The typed errors `OrderManager.create` can raise (`HTTPException`s in
src/api/order/order.py) together with the empty-cart `None` return that the
route turns into a 422. -/
inductive CreateErr where
  | missingBuyNowItems
  | productNotFound (product_id : Nat)
  | missingCustomAddress
  | emptyCart
  | insufficientStock (product_id : Nat)
deriving DecidableEq, Repr

/-- The `custom_address` dict on the buy-now path; `province`/`city`/`district`/
`detail` are read with a `""` default, the consignee fields without one. -/
structure CustomAddr where
  consignee_name : Option String
  consignee_phone : Option String
  province : String
  city : String
  district : String
  detail : String
deriving DecidableEq, Repr

/-- One entry of `buy_now_items` in the create request body. -/
structure BuyNowItem where
  product_id : Nat
  sku_id : Nat
  quantity : Nat
  price : Int
deriving DecidableEq, Repr

/-- The in-memory `items` dicts assembled in step 1 of `OrderManager.create`. -/
structure Item where
  sku_id : Nat
  product_id : Nat
  quantity : Nat
  price : Int
  is_vip : Bool
  specifications : Option String
deriving DecidableEq, Repr

/-- The shipping columns of the order row as set in step 1 of
`OrderManager.create` (all `NULL` on cart checkout). -/
structure AddrFields where
  consignee_name : Option String
  consignee_phone : Option String
  province : Option String
  city : Option String
  district : Option String
  shipping_address : Option String
deriving DecidableEq, Repr

/-- The buy-now item loop of `OrderManager.create` (src/api/order/order.py
lines 44-56): look each product up, raising 404 on the first missing one. -/
def buildBuyNowItems (db : DB) : List BuyNowItem → Except CreateErr (List Item)
  | [] => .ok []
  | it :: rest =>
    match db.products.find? (fun p => p.id == it.product_id) with
    | none => .error (.productNotFound it.product_id)
    | some p =>
      match buildBuyNowItems db rest with
      | .error e => .error e
      | .ok items =>
        .ok ({ sku_id := it.sku_id, product_id := it.product_id,
               quantity := it.quantity, price := it.price,
               is_vip := p.is_member_product, specifications := none } :: items)

/-- The cart checkout query of `OrderManager.create` (src/api/order/order.py
lines 67-79): selected cart rows of the user inner-joined with `product_skus`
and `products` (rows whose SKU or product is missing drop out of the join). -/
def cartItems (db : DB) (user_id : Nat) : List Item :=
  db.cart.filterMap fun c =>
    if c.user_id == user_id && c.selected then
      match db.skus.find? (fun s => s.id == c.sku_id),
            db.products.find? (fun p => p.id == c.product_id) with
      | some s, some p =>
        some { sku_id := c.sku_id, product_id := c.product_id,
               quantity := c.quantity, price := s.price,
               is_vip := p.is_member_product, specifications := c.specifications }
      | _, _ => none
    else none

/-- Step 1 of `OrderManager.create`: assemble the order detail list and the
shipping snapshot, with the source's error precedence (empty buy-now list,
then per-item product lookup, then missing custom address; empty cart yields
the `None` return that the route maps to 422). -/
def assembleItems (db : DB) (user_id : Nat) (custom_addr : Option CustomAddr)
    (buy_now : Bool) (buy_now_items : List BuyNowItem) :
    Except CreateErr (List Item × AddrFields) :=
  if buy_now then
    if buy_now_items.isEmpty then .error .missingBuyNowItems
    else
      match buildBuyNowItems db buy_now_items with
      | .error e => .error e
      | .ok items =>
        match custom_addr with
        | some a =>
          .ok (items, { consignee_name := a.consignee_name,
                        consignee_phone := a.consignee_phone,
                        province := some a.province, city := some a.city,
                        district := some a.district,
                        shipping_address := some a.detail })
        | none => .error .missingCustomAddress
  else
    let items := cartItems db user_id
    if items.isEmpty then .error .emptyCart
    else .ok (items, { consignee_name := none, consignee_phone := none,
                       province := none, city := none, district := none,
                       shipping_address := none })

/-- `total = sum(Decimal(quantity) * Decimal(price))` of step 2. -/
def itemsTotal (items : List Item) : Int :=
  (items.map (fun i => (i.quantity : Int) * i.price)).sum

/-- `cur.lastrowid` of the orders AUTO_INCREMENT key: fresh w.r.t. the rows
already present. -/
def freshOrderId (db : DB) : Nat :=
  (db.orders.map (·.id)).foldr max 0 + 1

/-- The per-line stock read of step 3 (src/api/order/order.py lines 120-126):
`SELECT stock FROM product_skus WHERE product_id=%s` + `fetchone()`, i.e. the
stock of the *first* SKU row of the product, 0 when there is no row; a missing
`stock` column makes the select yield the literal 0. -/
def stockFor (db : DB) (product_id : Nat) : Int :=
  if db.has_stock_field then
    match db.skus.find? (fun s => s.product_id == product_id) with
    | some s => s.stock
    | none => 0
  else 0

/-- Step 5's `UPDATE product_skus SET stock = stock - %s WHERE product_id = %s`:
it decrements every SKU row of the product. -/
def decrementStock (skus : List Sku) (product_id : Nat) (qty : Nat) : List Sku :=
  skus.map fun s =>
    if s.product_id == product_id then { s with stock := s.stock - qty } else s

/-- One destination of the fund split: `item_type`/`pool_type` as persisted in
`order_split`, plus its configured share in basis points.

Modelled from the spec: the split percentage table of the Fund Split Engine is
configuration (spec §4.3, §9 - "the exact percentage table is a configuration
concern"); `services/finance_service.py` is absent from src/. -/
structure SplitDest where
  item_type : String
  pool_type : Option String
  ratio_bp : Nat
deriving DecidableEq, Repr

/-- The FinanceAccount a split destination routes to: its named pool, or the
merchant settlement account for `pool_type = NULL` rows. -/
def destAccount (pool_type : Option String) : String :=
  pool_type.getD "merchant"

/-- Modelled from the spec: the configured split table — one destination list
for ordinary orders and one for premium-item (`is_vip_item`) orders, which
"route to a different pool set than ordinary orders" (spec §4.3). -/
structure SplitConfig where
  normal : List SplitDest
  vip : List SplitDest
deriving DecidableEq, Repr

/-- Modelled from the spec: the amount computation of the Fund Split Engine
(`split_order_funds` in `services/finance_service.py`, absent from src/) —
each destination receives its share rounded down to the minor unit, and "any
rounding remainder is assigned to a designated pool, never dropped" (spec
§4.3); the designated pool is the first destination of the table. -/
def splitAmounts (total : Int) (dests : List SplitDest) : List Int :=
  let base := dests.map (fun d => total * d.ratio_bp / 10000)
  match base with
  | [] => []
  | b :: rest => (b + (total - (b :: rest).sum)) :: rest

/-- The `order_split` rows the engine writes for one order. -/
def splitRows (n : String) (total : Int) (dests : List SplitDest) :
    List OrderSplitRow :=
  (dests.zip (splitAmounts total dests)).map fun da =>
    { order_number := n, item_type := da.1.item_type, amount := da.2,
      pool_type := da.1.pool_type }

/-- Modelled from the spec: `split_order_funds(order_number, total, has_vip,
cursor)` (`services/finance_service.py`, absent from src/; invoked at
src/api/order/order.py line 159 inside the order-creation transaction) —
"writes one AccountFlow row per destination (incrementing that
FinanceAccount's balance) and one OrderSplit row per destination" (spec §4.3). -/
def split_order_funds (cfg : SplitConfig) (order_number : String) (total : Int)
    (has_vip : Bool) (db : DB) : DB :=
  let dests := if has_vip then cfg.vip else cfg.normal
  let pairs := dests.zip (splitAmounts total dests)
  { db with
    order_split := db.order_split ++ splitRows order_number total dests,
    account_flow := db.account_flow ++ pairs.map (fun da =>
      { account_type := destAccount da.1.pool_type, change_amount := da.2,
        remark := order_number }),
    finance_accounts := pairs.foldl (fun accs da =>
      accs.map fun fa =>
        if fa.account_type == destAccount da.1.pool_type then
          { fa with balance := fa.balance + da.2 }
        else fa) db.finance_accounts }

/-- The order row inserted by step 2 of `OrderManager.create`: status
`'pending_pay'`, `pay_way 'wechat'`, deadline `now + 7` days, and the
`specifications` parameter stored in `refund_reason`. -/
def newOrderRow (user_id : Nat) (addr : AddrFields) (specifications : Option String)
    (delivery_way : String) (order_number : String) (now : Nat)
    (items : List Item) (db : DB) : OrderRow :=
  { id := freshOrderId db, user_id := user_id, order_number := order_number,
    total_amount := itemsTotal items, status := "pending_pay",
    is_vip_item := items.any (·.is_vip),
    consignee_name := addr.consignee_name, consignee_phone := addr.consignee_phone,
    province := addr.province, city := addr.city, district := addr.district,
    shipping_address := addr.shipping_address, delivery_way := delivery_way,
    pay_way := "wechat", auto_recv_time := now + 7,
    refund_reason := specifications }

/-- The committed state of a successful `OrderManager.create`: steps 2 and 4-7
applied in source order (order row, order lines, stock decrement when the
column exists, cart cleanup on cart checkout, fund split). -/
def createFinal (cfg : SplitConfig) (user_id : Nat) (addr : AddrFields)
    (specifications : Option String) (buy_now : Bool) (delivery_way : String)
    (order_number : String) (now : Nat) (items : List Item) (db : DB) : DB :=
  let oid := freshOrderId db
  let db1 := { db with orders := db.orders ++
    [newOrderRow user_id addr specifications delivery_way order_number now items db] }
  let db2 := { db1 with order_items := db1.order_items ++ items.map (fun i =>
    { order_id := oid, product_id := i.product_id, sku_id := i.sku_id,
      quantity := i.quantity, unit_price := i.price,
      total_price := (i.quantity : Int) * i.price }) }
  let db3 := if db.has_stock_field then
      { db2 with skus := (items.foldl
          (fun sk i => decrementStock sk i.product_id i.quantity) db2.skus) }
    else db2
  let db4 := if buy_now then db3
    else { db3 with cart := (db3.cart.filter
        (fun c => !(c.user_id == user_id && c.selected))) }
  split_order_funds cfg order_number (itemsTotal items) (items.any (·.is_vip)) db4

/-- Steps 2-7 of `OrderManager.create` given the assembled items: the order row
is inserted, then the per-line stock check runs (raising 400 on the first line
whose product stock is below its quantity), then lines, stock decrement, cart
cleanup and fund split follow. -/
def createCore (cfg : SplitConfig) (user_id : Nat) (addr : AddrFields)
    (specifications : Option String) (buy_now : Bool) (delivery_way : String)
    (order_number : String) (now : Nat) (items : List Item) (db : DB) :
    Except CreateErr (String × DB) :=
  match items.find? (fun i => decide (stockFor db i.product_id < (i.quantity : Int))) with
  | some i => .error (.insufficientStock i.product_id)
  | none =>
    .ok (order_number,
      createFinal cfg user_id addr specifications buy_now delivery_way
        order_number now items db)

namespace OrderManager

/-- `OrderManager.create` (src/api/order/order.py lines 28-162).  The generated
order number and the current time are surfaced as parameters; the split table
configuration `cfg` parametrises the spec-modelled Fund Split Engine. -/
def create (cfg : SplitConfig) (user_id : Nat) (custom_addr : Option CustomAddr)
    (specifications : Option String) (buy_now : Bool)
    (buy_now_items : List BuyNowItem) (delivery_way : String)
    (order_number : String) (now : Nat) (db : DB) :
    Except CreateErr (String × DB) :=
  match assembleItems db user_id custom_addr buy_now buy_now_items with
  | .error e => .error e
  | .ok (items, addr) =>
    createCore cfg user_id addr specifications buy_now delivery_way
      order_number now items db

/-- The state actually committed by a create request: `get_conn`
(src/core/database.py lines 22-50, `autocommit=False`) rolls the whole
transaction back on any exception, so an erroring create leaves the database
untouched. -/
def createCommitted (cfg : SplitConfig) (user_id : Nat)
    (custom_addr : Option CustomAddr) (specifications : Option String)
    (buy_now : Bool) (buy_now_items : List BuyNowItem) (delivery_way : String)
    (order_number : String) (now : Nat) (db : DB) : DB :=
  match create cfg user_id custom_addr specifications buy_now buy_now_items
      delivery_way order_number now db with
  | .ok (_, db') => db'
  | .error _ => db

/-- `OrderManager.update_status` (src/api/order/order.py lines 238-247):
`UPDATE orders SET status = %s, refund_reason = %s WHERE order_number = %s`;
the returned Bool is `cur.rowcount > 0` (MySQL counts rows actually changed). -/
def update_status (db : DB) (order_number new_status : String)
    (reason : Option String) : Bool × DB :=
  (db.orders.any (fun o => o.order_number == order_number &&
      !(o.status == new_status && o.refund_reason == reason)),
   { db with orders := db.orders.map fun o =>
      if o.order_number == order_number then
        { o with status := new_status, refund_reason := reason }
      else o })

/-- The detail view assembled by `OrderManager.detail` (src/api/order/order.py
lines 201-236); `specifications` is read back from `orders.refund_reason`. -/
structure DetailView where
  order_info : OrderRow
  items : List OrderItem
  specifications : Option String
deriving DecidableEq, Repr

/-- `OrderManager.detail`: the order row by number, its lines, and the
specification blob passed through from `refund_reason`. -/
def detail (db : DB) (order_number : String) : Option DetailView :=
  (db.orders.find? (fun o => o.order_number == order_number)).map fun o =>
    { order_info := o,
      items := db.order_items.filter (fun i => i.order_id == o.id),
      specifications := o.refund_reason }

end OrderManager

/-- The `/pay` route error (422 "非法支付方式"). -/
inductive PayErr where
  | invalidPayWay
deriving DecidableEq, Repr

/-- `order_pay` (src/api/order/order.py lines 288-292): reject a pay way that
is not on the allow-list, otherwise `update_status(order_number,
"pending_ship")` with no reason.  `validPayWays` stands for `VALID_PAY_WAYS`
(from `core.config`, absent from src/): per the spec it is the configured
allow-list of payment methods. -/
def order_pay (validPayWays : List String) (pay_way order_number : String)
    (db : DB) : Except PayErr (Bool × DB) :=
  if validPayWays.contains pay_way then
    .ok (OrderManager.update_status db order_number "pending_ship" none)
  else .error .invalidPayWay

namespace RefundManager

/-- `RefundManager.apply` (src/order/refund.py lines 11-21): return `False`
when a refund row for the order already exists, otherwise insert one in
status `'applied'`. -/
def apply (db : DB) (order_number refund_type reason_code : String) :
    Bool × DB :=
  if db.refunds.any (fun r => r.order_number == order_number) then (false, db)
  else (true, { db with refunds := db.refunds ++
    [{ order_number := order_number, refund_type := refund_type,
       reason := reason_code, status := "applied", reject_reason := none }] })

/-- Modelled from the spec: `reverse_split_on_refund` (`finance/finance_logic.py`,
absent from src/; invoked at src/order/refund.py line 31) — "for each prior
split destination, writes an AccountFlow row of the negated amount,
decrementing that FinanceAccount's balance back out", using "the recorded
OrderSplit rows (not a re-derived computation)" (spec §4.4). -/
def reverse_split_on_refund (order_number : String) (db : DB) : DB :=
  let splits := db.order_split.filter (fun r => r.order_number == order_number)
  { db with
    account_flow := db.account_flow ++ splits.map (fun r =>
      { account_type := destAccount r.pool_type, change_amount := -r.amount,
        remark := order_number }),
    finance_accounts := splits.foldl (fun accs r =>
      accs.map fun fa =>
        if fa.account_type == destAccount r.pool_type then
          { fa with balance := fa.balance - r.amount }
        else fa) db.finance_accounts }

/-- `RefundManager.audit` (src/order/refund.py lines 23-34): set the refund row
to `'success'`/`'rejected'`; on approval additionally move the order to
`'refund'` and reverse the recorded split. -/
def audit (db : DB) (order_number : String) (approve : Bool)
    (reject_reason : Option String) : Bool × DB :=
  let new_status := if approve then "success" else "rejected"
  let db1 := { db with refunds := db.refunds.map fun r =>
    if r.order_number == order_number then
      { r with status := new_status, reject_reason := reject_reason }
    else r }
  if approve then
    let db2 := { db1 with orders := db1.orders.map fun o =>
      if o.order_number == order_number then { o with status := "refund" } else o }
    (true, reverse_split_on_refund order_number db2)
  else (true, db1)

end RefundManager

/-- Modelled from the spec: `settle_to_merchant(total_amount)`
(`finance/finance_logic.py`, absent from src/; invoked at
src/order/fasteners.py line 19) — settlement credits the order total to the
merchant account as "an AccountFlow credit" (spec §4.5). -/
def settle_to_merchant (amount : Int) (db : DB) : DB :=
  { db with
    finance_accounts := db.finance_accounts.map (fun fa =>
      if fa.account_type == "merchant" then { fa with balance := fa.balance + amount }
      else fa),
    account_flow := db.account_flow ++
      [{ account_type := "merchant", change_amount := amount,
         remark := "auto_receive_settle" }] }

/-- The per-row body of the scheduler loop (src/order/fasteners.py lines
16-22), iterating the rows fetched at the start of the tick on one shared
connection: mark the order completed, settle, `conn.commit()`.  `settleOk`
tells whether `settle_to_merchant` succeeds for that order; when it raises,
`get_conn` rolls back the uncommitted status update and the exception leaves
the loop, ending the tick (the outer `try` only logs it). -/
def processRows (settleOk : String → Bool) : List OrderRow → DB → DB
  | [], db => db
  | r :: rest, db =>
    if settleOk r.order_number then
      processRows settleOk rest
        (settle_to_merchant r.total_amount
          { db with orders := db.orders.map fun o =>
              if o.id == r.id then { o with status := "completed" } else o })
    else db

/-- One tick of `auto_receive_task` (src/order/fasteners.py lines 9-26): fetch
every `pending_recv` order past its deadline, then process them in a loop. -/
def auto_receive_tick (settleOk : String → Bool) (now : Nat) (db : DB) : DB :=
  processRows settleOk
    (db.orders.filter (fun o => o.status == "pending_recv" && o.auto_recv_time ≤ now))
    db

/-! ### Helper lemmas about the Fund Split Engine arithmetic -/

theorem sum_map_ediv_le (l : List Int) :
    (l.map (· / (10000 : Int))).sum ≤ l.sum / 10000 := by
  induction l with
  | nil => simp
  | cons a l ih =>
    simp only [List.map_cons, List.sum_cons]
    have h1 : a / (10000 : Int) + l.sum / 10000 ≤ (a + l.sum) / 10000 := by
      refine (Int.le_ediv_iff_mul_le (by norm_num)).mpr ?_
      have ha : a / (10000 : Int) * 10000 ≤ a := Int.ediv_mul_le a (by norm_num)
      have hb : l.sum / (10000 : Int) * 10000 ≤ l.sum := Int.ediv_mul_le l.sum (by norm_num)
      calc (a / 10000 + l.sum / 10000) * 10000
          = a / 10000 * 10000 + l.sum / 10000 * 10000 := by ring
        _ ≤ a + l.sum := add_le_add ha hb
    exact le_trans (add_le_add_left ih _) h1

theorem sum_map_mul_left_int (t : Int) (l : List Int) :
    (l.map (fun x => t * x)).sum = t * l.sum := by
  induction l with
  | nil => simp
  | cons a l ih => simp [ih]; ring

theorem splitAmounts_length (t : Int) (d : List SplitDest) :
    (splitAmounts t d).length = d.length := by
  cases d <;> simp [splitAmounts]

theorem splitAmounts_sum (t : Int) (d : List SplitDest) (h : d ≠ []) :
    (splitAmounts t d).sum = t := by
  cases d with
  | nil => exact absurd rfl h
  | cons x xs => simp only [splitAmounts, List.map_cons, List.sum_cons]; ring

theorem splitAmounts_nonneg (t : Int) (d : List SplitDest) (ht : 0 ≤ t)
    (hbp : (d.map (·.ratio_bp)).sum ≤ 10000) :
    ∀ a ∈ splitAmounts t d, 0 ≤ a := by
  have hmem : ∀ x : SplitDest, 0 ≤ t * x.ratio_bp / 10000 := fun x =>
    Int.ediv_nonneg (mul_nonneg ht (Int.ofNat_nonneg _)) (by norm_num)
  have hS : ((d.map (fun x => t * x.ratio_bp / 10000)).sum) ≤ t := by
    have e1 : d.map (fun x => t * x.ratio_bp / 10000)
        = (d.map (fun x => t * (x.ratio_bp : Int))).map (· / 10000) := by
      simp [List.map_map, Function.comp]
    have e2 : (d.map (fun x => t * (x.ratio_bp : Int))).sum
        = t * ((d.map (fun x => (x.ratio_bp : Int))).sum) := by
      simpa using sum_map_mul_left_int t (d.map (fun x => (x.ratio_bp : Int)))
    have e3 : ((d.map (fun x => (x.ratio_bp : Int))).sum)
        = (((d.map (·.ratio_bp)).sum : Nat) : Int) := by
      rw [Nat.cast_list_sum, List.map_map]
      rfl
    calc (d.map (fun x => t * x.ratio_bp / 10000)).sum
        = ((d.map (fun x => t * (x.ratio_bp : Int))).map (· / 10000)).sum := by rw [e1]
      _ ≤ (d.map (fun x => t * (x.ratio_bp : Int))).sum / 10000 :=
          sum_map_ediv_le _
      _ = (t * (((d.map (·.ratio_bp)).sum : Nat) : Int)) / 10000 := by rw [e2, e3]
      _ ≤ (t * 10000) / 10000 := by
          refine Int.ediv_le_ediv (by norm_num) ?_
          exact mul_le_mul_of_nonneg_left (by exact_mod_cast hbp) ht
      _ = t := Int.mul_ediv_cancel t (by norm_num)
  intro a ha
  cases d with
  | nil => simp [splitAmounts] at ha
  | cons x xs =>
    simp only [splitAmounts, List.map_cons, List.mem_cons] at ha
    rcases ha with h0 | hrest
    · subst h0
      have hxs := hS
      simp only [List.map_cons, List.sum_cons] at hxs
      simp only [List.sum_cons]
      have hx := hmem x
      omega
    · rcases List.mem_map.mp hrest with ⟨y, _, rfl⟩
      exact hmem y

theorem splitRows_map_amount (n : String) (t : Int) (d : List SplitDest) :
    (splitRows n t d).map (·.amount) = splitAmounts t d := by
  unfold splitRows
  rw [List.map_map]
  have h : (d.zip (splitAmounts t d)).map
      ((fun r : OrderSplitRow => r.amount) ∘ fun da =>
        { order_number := n, item_type := da.1.item_type, amount := da.2,
          pool_type := da.1.pool_type }) =
      (d.zip (splitAmounts t d)).map Prod.snd := by
    apply List.map_congr_left; intro da _; rfl
  rw [h, List.map_snd_zip]
  exact le_of_eq (splitAmounts_length t d)

theorem splitRows_order_number (n : String) (t : Int) (d : List SplitDest) :
    ∀ r ∈ splitRows n t d, r.order_number = n := by
  intro r hr
  rcases List.mem_map.mp hr with ⟨da, _, rfl⟩
  rfl

/-! ### Inversion lemmas for `OrderManager.create` -/

theorem createCore_ok_elim {cfg : SplitConfig} {u : Nat} {addr : AddrFields}
    {sp : Option String} {bn : Bool} {dw n : String} {now : Nat}
    {items : List Item} {db : DB} {n' : String} {db' : DB}
    (h : createCore cfg u addr sp bn dw n now items db = .ok (n', db')) :
    items.find? (fun i => decide (stockFor db i.product_id < (i.quantity : Int))) = none ∧
    n' = n ∧ db' = createFinal cfg u addr sp bn dw n now items db := by
  unfold createCore at h
  cases hf : items.find? (fun i => decide (stockFor db i.product_id < (i.quantity : Int))) with
  | some i => rw [hf] at h; cases h
  | none =>
    rw [hf] at h
    cases h
    exact ⟨rfl, rfl, rfl⟩

theorem create_ok_elim {cfg : SplitConfig} {u : Nat} {ca : Option CustomAddr}
    {sp : Option String} {bn : Bool} {bni : List BuyNowItem} {dw n : String}
    {now : Nat} {db : DB} {n' : String} {db' : DB}
    (h : OrderManager.create cfg u ca sp bn bni dw n now db = .ok (n', db')) :
    ∃ items addr, assembleItems db u ca bn bni = .ok (items, addr) ∧
      items.find? (fun i => decide (stockFor db i.product_id < (i.quantity : Int))) = none ∧
      n' = n ∧ db' = createFinal cfg u addr sp bn dw n now items db := by
  unfold OrderManager.create at h
  cases ha : assembleItems db u ca bn bni with
  | error e => rw [ha] at h; cases h
  | ok pr =>
    obtain ⟨items, addr⟩ := pr
    rw [ha] at h
    obtain ⟨hfind, hn, hdb⟩ := createCore_ok_elim h
    exact ⟨items, addr, rfl, hfind, hn, hdb⟩

theorem createFinal_orders (cfg : SplitConfig) (u : Nat) (addr : AddrFields)
    (sp : Option String) (bn : Bool) (dw n : String) (now : Nat)
    (items : List Item) (db : DB) :
    (createFinal cfg u addr sp bn dw n now items db).orders =
      db.orders ++ [newOrderRow u addr sp dw n now items db] := by
  unfold createFinal split_order_funds
  cases hs : db.has_stock_field <;> cases bn <;> simp

theorem createFinal_order_items (cfg : SplitConfig) (u : Nat) (addr : AddrFields)
    (sp : Option String) (bn : Bool) (dw n : String) (now : Nat)
    (items : List Item) (db : DB) :
    (createFinal cfg u addr sp bn dw n now items db).order_items =
      db.order_items ++ items.map (fun i =>
        { order_id := freshOrderId db, product_id := i.product_id,
          sku_id := i.sku_id, quantity := i.quantity, unit_price := i.price,
          total_price := (i.quantity : Int) * i.price }) := by
  unfold createFinal split_order_funds
  cases hs : db.has_stock_field <;> cases bn <;> simp

theorem createFinal_order_split (cfg : SplitConfig) (u : Nat) (addr : AddrFields)
    (sp : Option String) (bn : Bool) (dw n : String) (now : Nat)
    (items : List Item) (db : DB) :
    (createFinal cfg u addr sp bn dw n now items db).order_split =
      db.order_split ++ splitRows n (itemsTotal items)
        (if items.any (·.is_vip) then cfg.vip else cfg.normal) := by
  unfold createFinal split_order_funds
  cases hs : db.has_stock_field <;> cases bn <;> simp

/-! ### Prices of assembled items -/

theorem buildBuyNowItems_price_nonneg {db : DB} :
    ∀ {l : List BuyNowItem} {items : List Item},
      buildBuyNowItems db l = .ok items → (∀ it ∈ l, 0 ≤ it.price) →
      ∀ i ∈ items, 0 ≤ i.price := by
  intro l
  induction l with
  | nil =>
    intro items h _
    cases h
    intro i hi
    cases hi
  | cons it rest ih =>
    intro items h hp
    unfold buildBuyNowItems at h
    cases hf : db.products.find? (fun p => p.id == it.product_id) with
    | none => rw [hf] at h; cases h
    | some p =>
      rw [hf] at h
      cases hr : buildBuyNowItems db rest with
      | error e => rw [hr] at h; cases h
      | ok its =>
        rw [hr] at h
        cases h
        intro i hi
        cases hi with
        | head => exact hp it (List.mem_cons_self _ _)
        | tail _ hi' =>
          exact ih hr (fun x hx => hp x (List.mem_cons_of_mem _ hx)) i hi'

theorem cartItems_price_nonneg {db : DB} {u : Nat}
    (hsk : ∀ s ∈ db.skus, 0 ≤ s.price) :
    ∀ i ∈ cartItems db u, 0 ≤ i.price := by
  intro i hi
  rcases List.mem_filterMap.mp hi with ⟨c, _, hc⟩
  by_cases hsel : (c.user_id == u && c.selected) = true
  · rw [if_pos hsel] at hc
    cases hs : db.skus.find? (fun s => s.id == c.sku_id) with
    | none => rw [hs] at hc; cases hc
    | some s =>
      rw [hs] at hc
      cases hp : db.products.find? (fun p => p.id == c.product_id) with
      | none => rw [hp] at hc; cases hc
      | some p =>
        rw [hp] at hc
        cases hc
        exact hsk s (List.mem_of_find?_eq_some hs)
  · rw [if_neg hsel] at hc; cases hc

theorem assembleItems_price_nonneg {db : DB} {u : Nat} {ca : Option CustomAddr}
    {bn : Bool} {bni : List BuyNowItem} {items : List Item} {addr : AddrFields}
    (h : assembleItems db u ca bn bni = .ok (items, addr))
    (hb : ∀ it ∈ bni, 0 ≤ it.price) (hsk : ∀ s ∈ db.skus, 0 ≤ s.price) :
    ∀ i ∈ items, 0 ≤ i.price := by
  unfold assembleItems at h
  cases bn with
  | true =>
    rw [if_pos rfl] at h
    by_cases he : bni.isEmpty = true
    · rw [if_pos he] at h; cases h
    · rw [if_neg he] at h
      cases hl : buildBuyNowItems db bni with
      | error e => rw [hl] at h; cases h
      | ok its =>
        rw [hl] at h
        cases ca with
        | none => cases h
        | some a =>
          cases h
          exact buildBuyNowItems_price_nonneg hl hb
  | false =>
    simp only [Bool.false_eq_true, if_false] at h
    by_cases he : (cartItems db u).isEmpty = true
    · rw [if_pos he] at h; cases h
    · rw [if_neg he] at h
      cases h
      exact cartItems_price_nonneg hsk

theorem itemsTotal_nonneg {items : List Item}
    (hp : ∀ i ∈ items, 0 ≤ i.price) : 0 ≤ itemsTotal items := by
  unfold itemsTotal
  induction items with
  | nil => simp
  | cons i l ih =>
    simp only [List.map_cons, List.sum_cons]
    have h1 : 0 ≤ (i.quantity : Int) * i.price :=
      mul_nonneg (Int.ofNat_nonneg _) (hp i (List.mem_cons_self _ _))
    have h2 := ih (fun x hx => hp x (List.mem_cons_of_mem _ hx))
    omega

/-! ### Example data used by the witnesses -/

/-- A sample split table: 70% merchant / 30% subsidy pool for ordinary orders,
60/40 with the premium revenue pool for premium-item orders. -/
def cfgEx : SplitConfig :=
  { normal := [⟨"merchant", none, 7000⟩, ⟨"pool", some "subsidy_pool", 3000⟩],
    vip := [⟨"merchant", none, 6000⟩, ⟨"pool", some "platform_revenue_pool", 4000⟩] }

/-- A sample buy-now shipping address. -/
def addrEx : CustomAddr := ⟨some "a", some "p", "", "", "", "addr"⟩

/-- A sample database: one ordinary product with one SKU (stock 5, price 1.00). -/
def dbEx : DB :=
  { products := [⟨1, false⟩], skus := [⟨1, 1, 5, 100⟩], cart := [],
    orders := [], order_items := [], order_split := [], account_flow := [],
    finance_accounts := [⟨"merchant", 0⟩, ⟨"subsidy_pool", 0⟩], refunds := [],
    has_stock_field := true }

/-! ### C1 -/

/-- C1: for every successful order creation, the fund split writes OrderSplit
rows whose amounts are non-negative and whose sum exactly equals the order's
`total_amount` (the rounding remainder is assigned to the designated first
pool of the split table, never dropped). -/
theorem create_split_amounts_nonneg_and_sum (cfg : SplitConfig) (u : Nat)
    (ca : Option CustomAddr) (sp : Option String) (bn : Bool)
    (bni : List BuyNowItem) (dw n : String) (now : Nat) (db : DB)
    (n' : String) (db' : DB)
    (hnorm : cfg.normal ≠ []) (hvip : cfg.vip ≠ [])
    (hbpn : (cfg.normal.map (·.ratio_bp)).sum ≤ 10000)
    (hbpv : (cfg.vip.map (·.ratio_bp)).sum ≤ 10000)
    (hpb : ∀ it ∈ bni, 0 ≤ it.price) (hps : ∀ s ∈ db.skus, 0 ≤ s.price)
    (hok : OrderManager.create cfg u ca sp bn bni dw n now db = .ok (n', db')) :
    ∃ (row : OrderRow) (splits : List OrderSplitRow),
      db'.orders = db.orders ++ [row] ∧
      db'.order_split = db.order_split ++ splits ∧
      (splits.map (·.amount)).sum = row.total_amount ∧
      ∀ r ∈ splits, 0 ≤ r.amount ∧ r.order_number = n' := by
  obtain ⟨items, addr, ha, hfind, hn, hdb⟩ := create_ok_elim hok
  subst hdb
  subst hn
  have hne : (if items.any (·.is_vip) then cfg.vip else cfg.normal) ≠ [] := by
    cases items.any (·.is_vip) <;> simpa
  have hbp : ((if items.any (·.is_vip) then cfg.vip else cfg.normal).map
      (·.ratio_bp)).sum ≤ 10000 := by
    cases items.any (·.is_vip) <;> simpa
  have ht : 0 ≤ itemsTotal items :=
    itemsTotal_nonneg (assembleItems_price_nonneg ha hpb hps)
  refine ⟨newOrderRow u addr sp dw n' now items db,
    splitRows n' (itemsTotal items) (if items.any (·.is_vip) then cfg.vip else cfg.normal),
    createFinal_orders cfg u addr sp bn dw n' now items db,
    createFinal_order_split cfg u addr sp bn dw n' now items db, ?_, ?_⟩
  · rw [splitRows_map_amount, splitAmounts_sum _ _ hne]
    rfl
  · intro r hr
    refine ⟨?_, splitRows_order_number _ _ _ r hr⟩
    rcases List.mem_map.mp hr with ⟨da, hda, rfl⟩
    exact splitAmounts_nonneg (itemsTotal items) _ ht hbp _ (List.of_mem_zip hda).2

/-- Witness for C1 at a concrete buy-now creation of total 2.00 split 70/30. -/
theorem create_split_amounts_nonneg_and_sum_witness :
    ∃ (row : OrderRow) (splits : List OrderSplitRow),
      (OrderManager.createCommitted cfgEx 42 (some addrEx) none true
        [⟨1, 1, 2, 100⟩] "platform" "N1" 0 dbEx).orders = dbEx.orders ++ [row] ∧
      (OrderManager.createCommitted cfgEx 42 (some addrEx) none true
        [⟨1, 1, 2, 100⟩] "platform" "N1" 0 dbEx).order_split =
        dbEx.order_split ++ splits ∧
      (splits.map (·.amount)).sum = row.total_amount ∧
      ∀ r ∈ splits, 0 ≤ r.amount ∧ r.order_number = "N1" :=
  create_split_amounts_nonneg_and_sum cfgEx 42 (some addrEx) none true
    [⟨1, 1, 2, 100⟩] "platform" "N1" 0 dbEx "N1"
    (OrderManager.createCommitted cfgEx 42 (some addrEx) none true
      [⟨1, 1, 2, 100⟩] "platform" "N1" 0 dbEx)
    (by decide) (by decide) (by decide) (by decide) (by decide) (by decide)
    (by rfl)

/-! ### C3 -/

/-- C3: for every successfully created order, the stored `total_amount` equals
the sum over its order lines of quantity times unit price, and each stored
line's `total_price` equals that line's quantity times its unit price. -/
theorem create_total_amount_eq_sum_lines (cfg : SplitConfig) (u : Nat)
    (ca : Option CustomAddr) (sp : Option String) (bn : Bool)
    (bni : List BuyNowItem) (dw n : String) (now : Nat) (db : DB)
    (n' : String) (db' : DB)
    (hok : OrderManager.create cfg u ca sp bn bni dw n now db = .ok (n', db')) :
    ∃ (row : OrderRow) (lines : List OrderItem),
      db'.orders = db.orders ++ [row] ∧
      db'.order_items = db.order_items ++ lines ∧
      row.total_amount = (lines.map (fun l => (l.quantity : Int) * l.unit_price)).sum ∧
      ∀ l ∈ lines, l.total_price = (l.quantity : Int) * l.unit_price ∧
        l.order_id = row.id := by
  obtain ⟨items, addr, ha, hfind, hn, hdb⟩ := create_ok_elim hok
  subst hdb
  refine ⟨newOrderRow u addr sp dw n now items db, _,
    createFinal_orders cfg u addr sp bn dw n now items db,
    createFinal_order_items cfg u addr sp bn dw n now items db, ?_, ?_⟩
  · show itemsTotal items = _
    rw [List.map_map]
    rfl
  · intro l hl
    rcases List.mem_map.mp hl with ⟨i, hi, rfl⟩
    exact ⟨rfl, rfl⟩

/-- Witness for C3 at the same concrete creation (one line, qty 2 at 1.00). -/
theorem create_total_amount_eq_sum_lines_witness :
    ∃ (row : OrderRow) (lines : List OrderItem),
      (OrderManager.createCommitted cfgEx 42 (some addrEx) none true
        [⟨1, 1, 2, 100⟩] "platform" "N1" 0 dbEx).orders = dbEx.orders ++ [row] ∧
      (OrderManager.createCommitted cfgEx 42 (some addrEx) none true
        [⟨1, 1, 2, 100⟩] "platform" "N1" 0 dbEx).order_items =
        dbEx.order_items ++ lines ∧
      row.total_amount = (lines.map (fun l => (l.quantity : Int) * l.unit_price)).sum ∧
      ∀ l ∈ lines, l.total_price = (l.quantity : Int) * l.unit_price ∧
        l.order_id = row.id :=
  create_total_amount_eq_sum_lines cfgEx 42 (some addrEx) none true
    [⟨1, 1, 2, 100⟩] "platform" "N1" 0 dbEx "N1"
    (OrderManager.createCommitted cfgEx 42 (some addrEx) none true
      [⟨1, 1, 2, 100⟩] "platform" "N1" 0 dbEx)
    (by rfl)

/-! ### C2 -/

/-- C2: when some assembled line's quantity exceeds the stock the code reads
for its product, order creation fails with the InsufficientStock error and the
whole transaction is rolled back — the committed database is exactly the
initial one (no order, line, split, or stock change survives). -/
theorem insufficient_stock_fails_and_rolls_back (cfg : SplitConfig) (u : Nat)
    (ca : Option CustomAddr) (sp : Option String) (bn : Bool)
    (bni : List BuyNowItem) (dw n : String) (now : Nat) (db : DB)
    (items : List Item) (addr : AddrFields)
    (hasm : assembleItems db u ca bn bni = .ok (items, addr))
    (hstock : ∃ i ∈ items, stockFor db i.product_id < (i.quantity : Int)) :
    (∃ pid, OrderManager.create cfg u ca sp bn bni dw n now db =
      .error (.insufficientStock pid)) ∧
    OrderManager.createCommitted cfg u ca sp bn bni dw n now db = db := by
  have hsome : (items.find? (fun i =>
      decide (stockFor db i.product_id < (i.quantity : Int)))).isSome := by
    rcases hstock with ⟨i, hi, hlt⟩
    exact List.find?_isSome.mpr ⟨i, hi, by simpa using hlt⟩
  rcases Option.isSome_iff_exists.mp hsome with ⟨j, hj⟩
  have hstep : OrderManager.create cfg u ca sp bn bni dw n now db =
      createCore cfg u addr sp bn dw n now items db := by
    unfold OrderManager.create
    rw [hasm]
  have hcreate : OrderManager.create cfg u ca sp bn bni dw n now db =
      .error (.insufficientStock j.product_id) := by
    rw [hstep]
    unfold createCore
    rw [hj]
  refine ⟨⟨j.product_id, hcreate⟩, ?_⟩
  unfold OrderManager.createCommitted
  rw [hcreate]

/-- Witness for C2: quantity 9 against stock 5 fails and leaves the database
untouched. -/
theorem insufficient_stock_fails_and_rolls_back_witness :
    (∃ pid, OrderManager.create cfgEx 42 (some addrEx) none true
      [⟨1, 1, 9, 100⟩] "platform" "N1" 0 dbEx =
      .error (.insufficientStock pid)) ∧
    OrderManager.createCommitted cfgEx 42 (some addrEx) none true
      [⟨1, 1, 9, 100⟩] "platform" "N1" 0 dbEx = dbEx :=
  insufficient_stock_fails_and_rolls_back cfgEx 42 (some addrEx) none true
    [⟨1, 1, 9, 100⟩] "platform" "N1" 0 dbEx
    [⟨1, 1, 9, 100, false, none⟩]
    ⟨some "a", some "p", some "", some "", some "", some "addr"⟩
    (by rfl) (by decide)

/-! ### C4 -/

/-- A product with a single SKU carrying stock 1. -/
def dbStock1Ex : DB := { dbEx with skus := [⟨1, 1, 1, 100⟩] }

/-- C4 (code bug evaluated at the failing input): an order with two buy-now
lines of quantity 1 each for the same product, against stock 1, is accepted
(each line is checked against the pre-decrement stock) and the subsequent
unconditional per-product decrements drive the SKU's stock to -1 — the claim
that stock never goes negative fails on the code. -/
theorem stock_goes_negative_on_duplicate_product_lines :
    (OrderManager.create cfgEx 42 (some addrEx) none true
      [⟨1, 1, 1, 100⟩, ⟨1, 1, 1, 100⟩] "platform" "N1" 0 dbStock1Ex).toOption.isSome
      = true ∧
    (OrderManager.createCommitted cfgEx 42 (some addrEx) none true
      [⟨1, 1, 1, 100⟩, ⟨1, 1, 1, 100⟩] "platform" "N1" 0 dbStock1Ex).skus.map
      (·.stock) = [-1] :=
  ⟨rfl, rfl⟩

/-! ### C5 -/

/-- C5: applying a refund when none exists for the order number inserts exactly
one row in status `'applied'` and returns true; any subsequent apply for that
order number returns false and inserts nothing. -/
theorem refund_apply_idempotent (db : DB) (n t r t' r' : String)
    (h : db.refunds.any (fun x => x.order_number == n) = false) :
    (RefundManager.apply db n t r).1 = true ∧
    (RefundManager.apply db n t r).2.refunds.filter (fun x => x.order_number == n) =
      [{ order_number := n, refund_type := t, reason := r, status := "applied",
         reject_reason := none }] ∧
    RefundManager.apply (RefundManager.apply db n t r).2 n t' r' =
      (false, (RefundManager.apply db n t r).2) := by
  have hfil : db.refunds.filter (fun x => x.order_number == n) = [] := by
    rw [List.filter_eq_nil_iff]
    intro a ha
    have := List.any_eq_false.mp h a ha
    simpa using this
  have hgen : ∀ d : DB, d.refunds.any (fun x => x.order_number == n) = true →
      RefundManager.apply d n t' r' = (false, d) := by
    intro d hd
    unfold RefundManager.apply
    rw [if_pos hd]
  refine ⟨?_, ?_, ?_⟩
  · simp [RefundManager.apply, h]
  · simp [RefundManager.apply, h, List.filter_append, hfil]
  · refine hgen _ ?_
    simp [RefundManager.apply, h, List.any_append]

/-- Witness for C5 on an empty refunds table. -/
theorem refund_apply_idempotent_witness :
    (RefundManager.apply dbEx "N1" "return" "broken").1 = true ∧
    (RefundManager.apply dbEx "N1" "return" "broken").2.refunds.filter
      (fun x => x.order_number == "N1") =
      [{ order_number := "N1", refund_type := "return", reason := "broken",
         status := "applied", reject_reason := none }] ∧
    RefundManager.apply (RefundManager.apply dbEx "N1" "return" "broken").2
      "N1" "refund_only" "again" =
      (false, (RefundManager.apply dbEx "N1" "return" "broken").2) :=
  refund_apply_idempotent dbEx "N1" "return" "broken" "refund_only" "again"
    (by decide)

/-! ### C6 -/

/-- The net AccountFlow contribution attributed to one order. -/
def flowSumFor (db : DB) (n : String) : Int :=
  ((db.account_flow.filter (fun f => f.remark == n)).map (·.change_amount)).sum

/-- The recorded OrderSplit rows of one order. -/
def splitsFor (db : DB) (n : String) : List OrderSplitRow :=
  db.order_split.filter (fun r => r.order_number == n)

theorem sum_map_neg_amount (l : List OrderSplitRow) :
    (l.map (fun r => -r.amount)).sum = -((l.map (·.amount)).sum) := by
  induction l with
  | nil => simp
  | cons a l ih => simp [ih]; ring

/-- C6: audit sets the refund's status to `'success'` on approval and
`'rejected'` on rejection; only on approval is the order moved to `'refund'`
and the recorded OrderSplit reversed — one negated AccountFlow row per
recorded split row — so that the order's net AccountFlow contribution becomes
zero; a rejection changes no order, flow, split, or account balance. -/
theorem refund_audit_reversal (db : DB) (n : String) (rr rr' : Option String)
    (hbal : flowSumFor db n = ((splitsFor db n).map (·.amount)).sum) :
    (RefundManager.audit db n true rr).2.account_flow =
      db.account_flow ++ (splitsFor db n).map (fun r =>
        { account_type := destAccount r.pool_type, change_amount := -r.amount,
          remark := n }) ∧
    (∀ x ∈ (RefundManager.audit db n true rr).2.refunds,
      x.order_number = n → x.status = "success") ∧
    (∀ o ∈ (RefundManager.audit db n true rr).2.orders,
      o.order_number = n → o.status = "refund") ∧
    flowSumFor (RefundManager.audit db n true rr).2 n = 0 ∧
    (∀ x ∈ (RefundManager.audit db n false rr').2.refunds,
      x.order_number = n → x.status = "rejected") ∧
    (RefundManager.audit db n false rr').2.orders = db.orders ∧
    (RefundManager.audit db n false rr').2.account_flow = db.account_flow ∧
    (RefundManager.audit db n false rr').2.order_split = db.order_split ∧
    (RefundManager.audit db n false rr').2.finance_accounts = db.finance_accounts := by
  refine ⟨rfl, ?_, ?_, ?_, ?_, rfl, rfl, rfl, rfl⟩
  · intro x hx hxn
    replace hx : x ∈ db.refunds.map (fun r =>
        if r.order_number == n then
          { r with status := "success", reject_reason := rr }
        else r) := hx
    rcases List.mem_map.mp hx with ⟨x₀, _, rfl⟩
    by_cases h0 : (x₀.order_number == n) = true
    · rw [if_pos h0]
    · rw [if_neg h0] at hxn ⊢
      exact absurd (beq_iff_eq.mpr hxn) h0
  · intro o ho hon
    replace ho : o ∈ db.orders.map (fun r =>
        if r.order_number == n then { r with status := "refund" } else r) := ho
    rcases List.mem_map.mp ho with ⟨o₀, _, rfl⟩
    by_cases h0 : (o₀.order_number == n) = true
    · rw [if_pos h0]
    · rw [if_neg h0] at hon ⊢
      exact absurd (beq_iff_eq.mpr hon) h0
  · show ((((RefundManager.audit db n true rr).2.account_flow).filter
        (fun f => f.remark == n)).map (·.change_amount)).sum = 0
    have hrows : (RefundManager.audit db n true rr).2.account_flow =
        db.account_flow ++ (splitsFor db n).map (fun r =>
          { account_type := destAccount r.pool_type, change_amount := -r.amount,
            remark := n }) := rfl
    rw [hrows, List.filter_append]
    have hkeep : ((splitsFor db n).map (fun r =>
        ({ account_type := destAccount r.pool_type, change_amount := -r.amount,
           remark := n } : AccountFlowRow))).filter (fun f => f.remark == n) =
        (splitsFor db n).map (fun r =>
          { account_type := destAccount r.pool_type, change_amount := -r.amount,
            remark := n }) := by
      rw [List.filter_eq_self]
      intro a ha
      rcases List.mem_map.mp ha with ⟨r, _, rfl⟩
      simp
    rw [hkeep, List.map_append, List.sum_append]
    have hneg : (((splitsFor db n).map (fun r =>
        ({ account_type := destAccount r.pool_type, change_amount := -r.amount,
           remark := n } : AccountFlowRow))).map (·.change_amount)).sum =
        -(((splitsFor db n).map (·.amount)).sum) := by
      rw [List.map_map]
      exact sum_map_neg_amount (splitsFor db n)
    rw [hneg]
    have hfst : ((db.account_flow.filter (fun f => f.remark == n)).map
        (·.change_amount)).sum = flowSumFor db n := rfl
    rw [hfst, hbal]
    ring
  · intro x hx hxn
    replace hx : x ∈ db.refunds.map (fun r =>
        if r.order_number == n then
          { r with status := "rejected", reject_reason := rr' }
        else r) := hx
    rcases List.mem_map.mp hx with ⟨x₀, _, rfl⟩
    by_cases h0 : (x₀.order_number == n) = true
    · rw [if_pos h0]
    · rw [if_neg h0] at hxn ⊢
      exact absurd (beq_iff_eq.mpr hxn) h0

/-- The order row most witnesses share: order `N1` of user 42, specification
blob stored in `refund_reason`. -/
def ordEx : OrderRow :=
  { id := 1, user_id := 42, order_number := "N1", total_amount := 100,
    status := "pending_pay", is_vip_item := false, consignee_name := none,
    consignee_phone := none, province := none, city := none, district := none,
    shipping_address := none, delivery_way := "platform", pay_way := "wechat",
    auto_recv_time := 7, refund_reason := some "size:L" }

/-- A database holding order `N1` with its recorded split (70 merchant /
30 subsidy pool) and matching forward AccountFlow rows, plus an applied
refund. -/
def dbRefundEx : DB :=
  { dbEx with
    orders := [{ ordEx with status := "pending_ship" }],
    order_split := [⟨"N1", "merchant", 70, none⟩,
                    ⟨"N1", "pool", 30, some "subsidy_pool"⟩],
    account_flow := [⟨"merchant", 70, "N1"⟩, ⟨"subsidy_pool", 30, "N1"⟩],
    finance_accounts := [⟨"merchant", 70⟩, ⟨"subsidy_pool", 30⟩],
    refunds := [⟨"N1", "return", "broken", "applied", none⟩] }

/-- Witness for C6 on `dbRefundEx`. -/
theorem refund_audit_reversal_witness :
    (RefundManager.audit dbRefundEx "N1" true none).2.account_flow =
      dbRefundEx.account_flow ++ (splitsFor dbRefundEx "N1").map (fun r =>
        { account_type := destAccount r.pool_type, change_amount := -r.amount,
          remark := "N1" }) ∧
    (∀ x ∈ (RefundManager.audit dbRefundEx "N1" true none).2.refunds,
      x.order_number = "N1" → x.status = "success") ∧
    (∀ o ∈ (RefundManager.audit dbRefundEx "N1" true none).2.orders,
      o.order_number = "N1" → o.status = "refund") ∧
    flowSumFor (RefundManager.audit dbRefundEx "N1" true none).2 "N1" = 0 ∧
    (∀ x ∈ (RefundManager.audit dbRefundEx "N1" false (some "no")).2.refunds,
      x.order_number = "N1" → x.status = "rejected") ∧
    (RefundManager.audit dbRefundEx "N1" false (some "no")).2.orders =
      dbRefundEx.orders ∧
    (RefundManager.audit dbRefundEx "N1" false (some "no")).2.account_flow =
      dbRefundEx.account_flow ∧
    (RefundManager.audit dbRefundEx "N1" false (some "no")).2.order_split =
      dbRefundEx.order_split ∧
    (RefundManager.audit dbRefundEx "N1" false (some "no")).2.finance_accounts =
      dbRefundEx.finance_accounts :=
  refund_audit_reversal dbRefundEx "N1" none (some "no") (by decide)

/-! ### C7 -/

/-- A database whose only order `N1` is already `completed`. -/
def dbDoneEx : DB := { dbEx with orders := [{ ordEx with status := "completed" }] }

/-- Counterexample for C7: paying order `N1`, which is in status `completed`
(not `pending_pay`), succeeds and moves it to `pending_ship` — `order_pay`
has no guard on the current status. -/
theorem order_pay_moves_completed_order :
    dbDoneEx.orders.map (·.status) = ["completed"] ∧
    (order_pay ["wechat"] "wechat" "N1" dbDoneEx).toOption.map
      (fun p => p.2.orders.map (·.status)) = some ["pending_ship"] :=
  ⟨rfl, rfl⟩

/-- C7 (amended): `order_pay` validates the payment method against the
allow-list, rejecting illegal methods with a validation error; an allowed
method sets every order with the given number to `pending_ship` (clearing
`refund_reason`) regardless of the order's current status. -/
theorem order_pay_amended (ways : List String) (pw n : String) (db : DB) :
    (ways.contains pw = false → order_pay ways pw n db = .error .invalidPayWay) ∧
    (ways.contains pw = true →
      order_pay ways pw n db =
        .ok (OrderManager.update_status db n "pending_ship" none) ∧
      (OrderManager.update_status db n "pending_ship" none).2.orders =
        db.orders.map (fun o =>
          if o.order_number == n then
            { o with status := "pending_ship", refund_reason := none }
          else o)) := by
  constructor
  · intro hw
    unfold order_pay
    have hc : ¬(ways.contains pw = true) := by rw [hw]; simp
    rw [if_neg hc]
  · intro hw
    refine ⟨?_, rfl⟩
    unfold order_pay
    rw [if_pos hw]

/-- Witness for C7's amended statement: an illegal method is rejected, and a
legal one moves `N1` to `pending_ship`. -/
theorem order_pay_amended_witness :
    (order_pay ["wechat"] "card" "N1" dbDoneEx = .error .invalidPayWay) ∧
    (order_pay ["wechat"] "wechat" "N1" dbDoneEx =
      .ok (OrderManager.update_status dbDoneEx "N1" "pending_ship" none) ∧
    (OrderManager.update_status dbDoneEx "N1" "pending_ship" none).2.orders =
      dbDoneEx.orders.map (fun o =>
        if o.order_number == "N1" then
          { o with status := "pending_ship", refund_reason := none }
        else o)) :=
  ⟨(order_pay_amended ["wechat"] "card" "N1" dbDoneEx).1 (by decide),
   (order_pay_amended ["wechat"] "wechat" "N1" dbDoneEx).2 (by decide)⟩

/-! ### C8 -/

/-- Counterexample for C8: a buy-now line referencing SKU 999, which does not
exist (the only SKU row has id 1), is accepted — the order is created with an
order line pointing at the non-existent SKU instead of failing with NotFound.
(User existence is never checked either: no query touches a users table.) -/
theorem create_accepts_missing_sku :
    (OrderManager.create cfgEx 42 (some addrEx) none true
      [⟨1, 999, 1, 500⟩] "platform" "N1" 0 dbEx).toOption.isSome = true ∧
    (OrderManager.createCommitted cfgEx 42 (some addrEx) none true
      [⟨1, 999, 1, 500⟩] "platform" "N1" 0 dbEx).order_items.map (·.sku_id) =
      [999] ∧
    dbEx.skus.map (·.id) = [1] :=
  ⟨rfl, rfl, rfl⟩

theorem buildBuyNowItems_missing_product {db : DB} :
    ∀ {l : List BuyNowItem},
      (∃ it ∈ l, db.products.find? (fun p => p.id == it.product_id) = none) →
      ∃ pid, buildBuyNowItems db l = .error (.productNotFound pid) := by
  intro l
  induction l with
  | nil => rintro ⟨it, hit, _⟩; cases hit
  | cons it rest ih =>
    rintro ⟨j, hj, hjn⟩
    unfold buildBuyNowItems
    cases hf : db.products.find? (fun p => p.id == it.product_id) with
    | none => exact ⟨it.product_id, rfl⟩
    | some p =>
      cases hj with
      | head => rw [hjn] at hf; cases hf
      | tail _ hj' =>
        rcases ih ⟨j, hj', hjn⟩ with ⟨pid, hpid⟩
        rw [hpid]
        exact ⟨pid, rfl⟩

/-- C8 (amended): on the buy-now path, referenced products are validated —
a line whose product does not exist makes creation fail with the NotFound
error before anything is written, and the transaction commits nothing.
(Users and SKUs are not validated, see the counterexample.) -/
theorem create_missing_product_not_found (cfg : SplitConfig) (u : Nat)
    (ca : Option CustomAddr) (sp : Option String) (bni : List BuyNowItem)
    (dw n : String) (now : Nat) (db : DB)
    (hmiss : ∃ it ∈ bni, db.products.find? (fun p => p.id == it.product_id) = none) :
    (∃ pid, OrderManager.create cfg u ca sp true bni dw n now db =
      .error (.productNotFound pid)) ∧
    OrderManager.createCommitted cfg u ca sp true bni dw n now db = db := by
  rcases buildBuyNowItems_missing_product hmiss with ⟨pid, hpid⟩
  have hnonempty : bni.isEmpty = false := by
    rcases hmiss with ⟨it, hit, _⟩
    cases bni with
    | nil => cases hit
    | cons a l => rfl
  have hasm : assembleItems db u ca true bni = .error (.productNotFound pid) := by
    unfold assembleItems
    rw [if_pos rfl, if_neg (by simp [hnonempty]), hpid]
  have hcreate : OrderManager.create cfg u ca sp true bni dw n now db =
      .error (.productNotFound pid) := by
    unfold OrderManager.create
    rw [hasm]
  refine ⟨⟨pid, hcreate⟩, ?_⟩
  unfold OrderManager.createCommitted
  rw [hcreate]

/-- Witness for C8's amended statement: product 77 does not exist. -/
theorem create_missing_product_not_found_witness :
    (∃ pid, OrderManager.create cfgEx 42 (some addrEx) none true
      [⟨77, 1, 1, 100⟩] "platform" "N1" 0 dbEx =
      .error (.productNotFound pid)) ∧
    OrderManager.createCommitted cfgEx 42 (some addrEx) none true
      [⟨77, 1, 1, 100⟩] "platform" "N1" 0 dbEx = dbEx :=
  create_missing_product_not_found cfgEx 42 (some addrEx) none
    [⟨77, 1, 1, 100⟩] "platform" "N1" 0 dbEx (by decide)

/-! ### C9 -/

/-- An order eligible for auto-receive: `pending_recv`, deadline passed. -/
def ordRecv1 : OrderRow :=
  { ordEx with
    id := 1, order_number := "n1", status := "pending_recv",
    auto_recv_time := 0, total_amount := 10 }

/-- A second eligible order. -/
def ordRecv2 : OrderRow := { ordRecv1 with id := 2, order_number := "n2" }

/-- A database with two orders eligible in the same scheduler tick. -/
def dbSchedEx : DB := { dbEx with orders := [ordRecv1, ordRecv2] }

/-- C9 (code bug evaluated at the failing input): both orders are eligible in
the tick and settlement would succeed for `n2`, but a settlement failure on
`n1` ends the whole tick — the database is returned unchanged and `n2` stays
`pending_recv` instead of being processed; with no failure the same tick
completes both.  The failure does abort the processing of the remaining
eligible orders, contradicting the claim. -/
theorem scheduler_failure_aborts_tick :
    (dbSchedEx.orders.filter (fun o =>
      o.status == "pending_recv" && o.auto_recv_time ≤ 1)).map (·.order_number) =
      ["n1", "n2"] ∧
    auto_receive_tick (fun s => s == "n2") 1 dbSchedEx = dbSchedEx ∧
    (auto_receive_tick (fun s => s == "n2") 1 dbSchedEx).orders.map (·.status) =
      ["pending_recv", "pending_recv"] ∧
    (auto_receive_tick (fun _ => true) 1 dbSchedEx).orders.map (·.status) =
      ["completed", "completed"] :=
  ⟨rfl, rfl, rfl, rfl⟩

/-! ### C10 -/

/-- C10: every `update_status` call overwrites `refund_reason` with the
supplied reason (NULL when none is given); in particular, paying an order
through `order_pay` erases the specification blob stored there at creation,
so the detail view's `specifications` is gone after the pay. -/
theorem update_status_overwrites_refund_reason (db : DB) (n s : String)
    (reason : Option String) (ways : List String) (pw : String) :
    (∀ o ∈ (OrderManager.update_status db n s reason).2.orders,
      o.order_number = n → o.refund_reason = reason) ∧
    (∀ p, order_pay ways pw n db = .ok p →
      ∀ d, OrderManager.detail p.2 n = some d → d.specifications = none) := by
  have hmain : ∀ (rs : Option String) (st : String),
      ∀ o ∈ (OrderManager.update_status db n st rs).2.orders,
        o.order_number = n → o.refund_reason = rs := by
    intro rs st o ho hon
    replace ho : o ∈ db.orders.map (fun r =>
        if r.order_number == n then { r with status := st, refund_reason := rs }
        else r) := ho
    rcases List.mem_map.mp ho with ⟨o₀, _, rfl⟩
    by_cases h0 : (o₀.order_number == n) = true
    · rw [if_pos h0]
    · rw [if_neg h0] at hon ⊢
      exact absurd (beq_iff_eq.mpr hon) h0
  refine ⟨hmain reason s, ?_⟩
  intro p hp d hd
  unfold order_pay at hp
  by_cases hw : (ways.contains pw = true)
  · rw [if_pos hw] at hp
    cases hp
    unfold OrderManager.detail at hd
    cases hf : (OrderManager.update_status db n "pending_ship" none).2.orders.find?
        (fun o => o.order_number == n) with
    | none => rw [hf] at hd; cases hd
    | some o =>
      rw [hf] at hd
      cases hd
      show o.refund_reason = none
      have hpr := List.find?_some hf
      exact hmain none "pending_ship" o (List.mem_of_find?_eq_some hf)
        (beq_iff_eq.mp hpr)
  · rw [if_neg hw] at hp
    cases hp

/-- A database whose order `N1` is pending payment and still carries its
specification blob in `refund_reason`. -/
def dbPendingEx : DB := { dbEx with orders := [ordEx] }

/-- Witness for C10: order `N1` carries the blob before paying; after any
successful pay, the detail view's specifications are gone. -/
theorem update_status_overwrites_refund_reason_witness :
    dbPendingEx.orders.map (·.refund_reason) = [some "size:L"] ∧
    (∀ p, order_pay ["wechat"] "wechat" "N1" dbPendingEx = .ok p →
      ∀ d, OrderManager.detail p.2 "N1" = some d → d.specifications = none) :=
  ⟨rfl, (update_status_overwrites_refund_reason dbPendingEx "N1" "pending_ship"
    none ["wechat"] "wechat").2⟩

end DS
